import Mathlib

/-!
Shallow embedding of `src/server.js` (ebay-compatibility-tool).

The server is a stateless proxy: it normalizes caller-supplied property
filters, fans out one upstream call per selected "Year" value, merges the
fulfilled branches and renders an HTML table.  Upstream HTTP behaviour is
modelled as an oracle function from the request descriptor to an outcome;
JavaScript `undefined` fields are modelled with `Option`, and JavaScript
string falsiness (`undefined`, `null`, `""`) with explicit emptiness tests.
-/

set_option autoImplicit false

namespace EbayCompat

/-- A `(propertyName, propertyValue)` pair.  Used both for caller-supplied
filters and for the `compatibilityDetails` entries returned by upstream. -/
structure Filter where
  propertyName : String
  propertyValue : String
deriving DecidableEq, Repr

/-- One compatibility record from the upstream response: the
`compatibilityDetails` array of property pairs. -/
structure CompatRecord where
  compatibilityDetails : List Filter
deriving DecidableEq, Repr

/-- JavaScript `a || b` for `a` an optionally-present string: the default is
taken when `a` is `undefined` or the empty string (both falsy). -/
def jsOr (v : Option String) (dflt : String) : String :=
  match v with
  | none => dflt
  | some s => if s = "" then dflt else s

/-- JavaScript falsiness of an optionally-present string variable
(`!x` is true exactly when the variable is `undefined` or `""`). -/
def isFalsy (v : Option String) : Bool :=
  match v with
  | none => true
  | some s => s = ""

/-- `DEFAULT_CATEGORY_ID` from `server.js`. -/
def DEFAULT_CATEGORY_ID : String := "33560"

/-- Lookup in the object built by
`Object.fromEntries(compatibility.compatibilityDetails.map(d => [d.propertyName, d.propertyValue]))`:
with duplicate keys the later entry wins, so the lookup returns the value of
the last detail carrying the requested name. -/
def detailLookup (c : CompatRecord) (name : String) : Option String :=
  ((c.compatibilityDetails.filter (fun d => d.propertyName = name)).map
    (fun d => d.propertyValue)).getLast?

/-- One step of the `baseFilters` reduce from `server.js` lines 107-110:
`if (filter && filter.propertyName) acc[filter.propertyName] = filter`.
The JavaScript object is modelled by its lookup function. -/
def baseFiltersFold (acc : String → Option Filter) : List Filter → (String → Option Filter)
  | [] => acc
  | f :: rest =>
    baseFiltersFold
      (if f.propertyName = "" then acc
      else fun n => if n = f.propertyName then some f else acc n) rest

/-- The `baseFilters` object built from the caller's `propertyFilters`
(starting from the empty object `{}`). -/
def baseFiltersOf (pfs : List Filter) : String → Option Filter :=
  baseFiltersFold (fun _ => none) pfs

/-- The values the built FilterGroup holds for a property name: the
`baseFilters` object stores at most one filter per name. -/
def groupValues (pfs : List Filter) (n : String) : List String :=
  match baseFiltersOf pfs n with
  | some f => [f.propertyValue]
  | none => []

/-- `createTableRow` from `server.js` lines 28-51, template literal spelled
out as explicit string appends. -/
def createTableRow (c : CompatRecord) (base : String → Option Filter) : String :=
  let year := jsOr (detailLookup c "Year")
    (jsOr ((base "Year").map Filter.propertyValue) "")
  let make := jsOr ((base "Make").map Filter.propertyValue) ""
  let model := jsOr ((base "Model").map Filter.propertyValue) ""
  let trim := jsOr (detailLookup c "Trim") ""
  let engine := jsOr (detailLookup c "Engine") ""
  let notes := jsOr (detailLookup c "Notes") ""
  "\n<tr>\n<td data-label=\"Year\">" ++ year ++
    "</td>\n<td data-label=\"Make\">" ++ make ++
    "</td>\n<td data-label=\"Model\">" ++ model ++
    "</td>\n<td data-label=\"Trim\">" ++ trim ++
    "</td>\n<td data-label=\"Engine\">" ++ engine ++
    "</td>\n<td data-label=\"Notes\">" ++ notes ++
    "</td>\n</tr>"

/-- The fixed opening of the rendered table up to the interpolated rows
(`server.js` lines 71-85, with `displayMake` interpolated). -/
def tableOpening (displayMake : String) : String :=
  "\n<h2>Compatibility Results for " ++ displayMake ++
    "</h2>\n<table class=\"responsive-table\">\n<thead>\n<tr>\n<th>Year</th>\n<th>Make</th>\n<th>Model</th>\n<th>Trim</th>\n<th>Engine</th>\n<th>Notes</th>\n</tr>\n</thead>\n<tbody>\n"

/-- The fixed closing of the rendered table (`server.js` lines 85-87). -/
def tableClosing : String := "\n</tbody>\n</table>"

/-- The no-data paragraph (`server.js` lines 63 and 153). -/
def noDataParagraph (displayMake : String) : String :=
  "<p>No compatibility data found for " ++ displayMake ++ ".</p>"

/-- `generateCompatibilityTable` from `server.js` lines 59-88.  The
`baseFilters` object is passed as its lookup function. -/
def generateCompatibilityTable (responseData : List CompatRecord)
    (base : String → Option Filter) : String :=
  let displayMake := jsOr ((base "Make").map Filter.propertyValue) "Vehicle"
  if responseData.length = 0 then
    noDataParagraph displayMake
  else
    let rowsHTML := String.join (responseData.map (fun c => createTableRow c base))
    tableOpening displayMake ++ rowsHTML ++ tableClosing

/-- `selectedYears` from `server.js` lines 113-115. -/
def selectedYears (pfs : List Filter) : List String :=
  (pfs.filter (fun f => f.propertyName = "Year")).map (fun f => f.propertyValue)

/-- `propertyFilters.filter(f => f.propertyName !== "Year")` as computed
inside each fan-out branch (`server.js` line 133). -/
def nonYearFilters (pfs : List Filter) : List Filter :=
  pfs.filter (fun f => f.propertyName ≠ "Year")

/-- The JSON body of one upstream call to the multi-compatibility endpoint
(`server.js` lines 125-139).  Headers and the endpoint URL are fixed
constants and are not part of the model. -/
structure UpstreamCall where
  categoryId : String
  propertyFilters : List Filter
  propertyNames : Option (List String)
deriving DecidableEq, Repr

/-- Outcome of one upstream branch as observed through
`Promise.allSettled`: fulfilled with the (possibly absent)
`response.data.compatibilities` array, or rejected. -/
inductive UpstreamResult where
  | fulfilled (compatibilities : Option (List CompatRecord))
  | rejected
deriving DecidableEq, Repr

/-- The value of a fulfilled branch (`response.data.compatibilities || []`),
or `none` for a rejected branch, mirroring the
`results.filter(r => r.status === 'fulfilled')` step. -/
def settledValue? : UpstreamResult → Option (List CompatRecord)
  | .fulfilled o => some (o.getD [])
  | .rejected => none

/-- A branch's contribution to the merge: its record list when fulfilled,
nothing when rejected. -/
def fulfilledList : UpstreamResult → List CompatRecord
  | .fulfilled o => o.getD []
  | .rejected => []

/-- The parsed body of a `POST /api/get-compatibilities` request; every
field may be absent. -/
structure CompatRequest where
  categoryId : Option String
  propertyFilters : Option (List Filter)
  propertyNames : Option (List String)
deriving DecidableEq, Repr

/-- The request descriptor built for one selected year (`server.js`
lines 132-139): all non-Year filters, then the single Year filter. -/
def yearCall (catId : Option String) (names : Option (List String))
    (pfs : List Filter) (y : String) : UpstreamCall :=
  { categoryId := jsOr catId DEFAULT_CATEGORY_ID
    propertyFilters := nonYearFilters pfs ++ [⟨"Year", y⟩]
    propertyNames := names }

/-- The sequence of upstream calls issued by the fan-out, in issuance
order (one per entry of `selectedYears`). -/
def yearCalls (req : CompatRequest) (pfs : List Filter) : List UpstreamCall :=
  (selectedYears pfs).map (yearCall req.categoryId req.propertyNames pfs)

/-- `mergedData` (`server.js` lines 145-150): flatten the fulfilled
branches' record lists, in issuance order. -/
def mergedOf (up : UpstreamCall → UpstreamResult) (req : CompatRequest)
    (pfs : List Filter) : List CompatRecord :=
  (((yearCalls req pfs).map up).filterMap settledValue?).flatten

/-- A response body: HTML fragment for the main endpoint, JSON for the
makes/models endpoints. -/
inductive ApiBody where
  | html (s : String)
  | jsonError (msg : String)
  | jsonMakes (makes : List String)
  | jsonModels (models : List String)
deriving DecidableEq, Repr

/-- What a handler invocation produced: the HTTP response, if any was sent
(`none` models an uncaught exception escaping the handler), and the
upstream calls it issued. -/
structure HandlerResult where
  response : Option (Nat × ApiBody)
  upstreamCalls : List UpstreamCall
deriving DecidableEq, Repr

/-- The 401 body of the main endpoint (`server.js` line 103). -/
def authErrorHtml : String :=
  "<p style=\"color: red;\">Authentication Error: Server is missing required eBay credentials.</p>"

/-- The `POST /api/get-compatibilities` handler (`server.js` lines 100-164).
`token` is `EBAY_AUTH_TOKEN` (absent when the env var is unset), `up` the
upstream oracle.  When `propertyFilters` is absent,
`propertyFilters.filter(...)` on line 113 throws a `TypeError` (line 113
has no `|| []` guard, unlike line 107), so no response is produced: the
result's `response` is `none`.  `Promise.allSettled` never rejects, so the
502 `catch` branch is unreachable from branch failures. -/
def getCompatibilities (token : Option String) (up : UpstreamCall → UpstreamResult)
    (req : CompatRequest) : HandlerResult :=
  if isFalsy token then
    { response := some (401, .html authErrorHtml), upstreamCalls := [] }
  else
    match req.propertyFilters with
    | none => { response := none, upstreamCalls := [] }
    | some pfs =>
      let base := baseFiltersOf pfs
      let calls := yearCalls req pfs
      let merged := mergedOf up req pfs
      if merged.length = 0 then
        { response := some (200, .html (noDataParagraph
            (jsOr ((base "Make").map Filter.propertyValue) "Vehicle")))
          upstreamCalls := calls }
      else
        { response := some (200, .html (generateCompatibilityTable merged base))
          upstreamCalls := calls }

/-- The JSON body of one upstream call to the single-property enumeration
endpoint used by `get-makes` / `get-models`. -/
structure PropertyCall where
  categoryId : String
  propertyFilters : List Filter
  propertyName : String
deriving DecidableEq, Repr

/-- Outcome of the single upstream call of `get-makes` / `get-models`:
fulfilled with the (possibly absent) `propertyValues` array, or rejected
(which the handler's `catch` turns into a 502). -/
inductive PropResult where
  | fulfilled (propertyValues : Option (List String))
  | rejected
deriving DecidableEq, Repr

/-- Result of a `get-makes` / `get-models` invocation. -/
structure PropHandlerResult where
  response : Option (Nat × ApiBody)
  upstreamCalls : List PropertyCall
deriving DecidableEq, Repr

/-- The `POST /api/get-makes` handler (`server.js` lines 169-205). -/
def getMakes (token : Option String) (up : PropertyCall → PropResult)
    (year : Option String) : PropHandlerResult :=
  if isFalsy token then
    { response := some (401, .jsonError "Missing eBay Token"), upstreamCalls := [] }
  else if isFalsy year then
    { response := some (400, .jsonError "Year is required"), upstreamCalls := [] }
  else
    let call : PropertyCall :=
      { categoryId := DEFAULT_CATEGORY_ID
        propertyFilters := [⟨"Year", year.getD ""⟩]
        propertyName := "Make" }
    match up call with
    | .fulfilled o =>
      { response := some (200, .jsonMakes (o.getD [])), upstreamCalls := [call] }
    | .rejected =>
      { response := some (502, .jsonError "Failed to fetch makes"), upstreamCalls := [call] }

/-- The `POST /api/get-models` handler (`server.js` lines 210-249). -/
def getModels (token : Option String) (up : PropertyCall → PropResult)
    (year make : Option String) : PropHandlerResult :=
  if isFalsy token then
    { response := some (401, .jsonError "Missing eBay Token"), upstreamCalls := [] }
  else if isFalsy year || isFalsy make then
    { response := some (400, .jsonError "Year and Make are required"), upstreamCalls := [] }
  else
    let call : PropertyCall :=
      { categoryId := DEFAULT_CATEGORY_ID
        propertyFilters := [⟨"Year", year.getD ""⟩, ⟨"Make", make.getD ""⟩]
        propertyName := "Model" }
    match up call with
    | .fulfilled o =>
      { response := some (200, .jsonModels (o.getD [])), upstreamCalls := [call] }
    | .rejected =>
      { response := some (502, .jsonError "Failed to fetch models"), upstreamCalls := [call] }

/-! ### Claim-side definitions

Definitions written from the spec's words, for comparison with the
embedded code. -/

/-- Modelled from the spec: the uniform per-cell resolution chain the spec
asserts for every column — detail property, then the base filter for that
property, then the empty string. -/
def claimCell (c : CompatRecord) (base : String → Option Filter) (col : String) : String :=
  jsOr (detailLookup c col) (jsOr ((base col).map Filter.propertyValue) "")

/-- Modelled from the spec: the table row that would result if every column
followed the uniform detail-then-base-filter-then-empty chain. -/
def claimRow (c : CompatRecord) (base : String → Option Filter) : String :=
  "\n<tr>\n<td data-label=\"Year\">" ++ claimCell c base "Year" ++
    "</td>\n<td data-label=\"Make\">" ++ claimCell c base "Make" ++
    "</td>\n<td data-label=\"Model\">" ++ claimCell c base "Model" ++
    "</td>\n<td data-label=\"Trim\">" ++ claimCell c base "Trim" ++
    "</td>\n<td data-label=\"Engine\">" ++ claimCell c base "Engine" ++
    "</td>\n<td data-label=\"Notes\">" ++ claimCell c base "Notes" ++
    "</td>\n</tr>"

/-- The resolution chain the code actually uses for the Year column:
detail, then base filter, then empty. -/
def codeCellYear (c : CompatRecord) (base : String → Option Filter) : String :=
  jsOr (detailLookup c "Year") (jsOr ((base "Year").map Filter.propertyValue) "")

/-- The resolution chain the code actually uses for the Make and Model
columns: base filter then empty; the record's details are ignored. -/
def codeCellBase (base : String → Option Filter) (col : String) : String :=
  jsOr ((base col).map Filter.propertyValue) ""

/-- The resolution chain the code actually uses for the Trim, Engine and
Notes columns: detail then empty; the base filter is ignored. -/
def codeCellDetail (c : CompatRecord) (col : String) : String :=
  jsOr (detailLookup c col) ""

/-- Does a character list contain `'<'` immediately followed by `'t'`?
Every table-related tag the renderer can emit (`<table`, `<thead`,
`<tbody`, `<tr`, `<td`, `<th`) starts with these two characters, while the
no-data paragraph contains none, so this decides "contains a table". -/
def hasLtT : List Char → Bool
  | [] => false
  | [_] => false
  | a :: b :: rest => (a == '<' && b == 't') || hasLtT (b :: rest)

/-! ### Concrete instances used by the claim theorems -/

/-- An upstream oracle whose every branch is rejected. -/
def upAllRejected : UpstreamCall → UpstreamResult := fun _ => .rejected

/-- An upstream oracle whose every branch fulfills with an empty
`compatibilities` array. -/
def upAllEmpty : UpstreamCall → UpstreamResult := fun _ => .fulfilled (some [])

/-- A single-property-endpoint oracle that always rejects. -/
def upPropRejected : PropertyCall → PropResult := fun _ => .rejected

/-- The example input filters from the spec:
`[{Year,2014},{Year,2020},{Make,Ram},{Model,1500}]`. -/
def pfsExample : List Filter :=
  [⟨"Year", "2014"⟩, ⟨"Year", "2020"⟩, ⟨"Make", "Ram"⟩, ⟨"Model", "1500"⟩]

/-- The example upstream record for 2014: its details carry
`Year = 2014` and `Engine = 5.7L V8`. -/
def recExample : CompatRecord := ⟨[⟨"Year", "2014"⟩, ⟨"Engine", "5.7L V8"⟩]⟩

/-- The example upstream oracle: one record for the Year=2014 branch, an
empty fulfilled result for every other branch (in particular Year=2020). -/
def upExample : UpstreamCall → UpstreamResult := fun c =>
  if c.propertyFilters = [⟨"Make", "Ram"⟩, ⟨"Model", "1500"⟩, ⟨"Year", "2014"⟩] then
    .fulfilled (some [recExample])
  else
    .fulfilled (some [])

/-- The example request body: default category id, the example filters,
propertyNames `[Engine, Trim]`. -/
def reqExample : CompatRequest := ⟨none, some pfsExample, some ["Engine", "Trim"]⟩

/-! ### Helper lemmas -/

/-- `getLast?` of a cons, combined with `Option.or`: the head becomes the
fallback for the tail's last element. -/
theorem or_getLast?_cons {α : Type} (l : List α) (a : α) (x : Option α) :
    ((a :: l).getLast?).or x = (l.getLast?).or (some a) := by
  induction l generalizing a x with
  | nil => rfl
  | cons b m ih =>
    rw [List.getLast?_cons_cons, ih b x, ih b (some a)]

/-- The `baseFilters` reduce, started from an arbitrary accumulator object:
the lookup of a nonempty name returns the last filter carrying that name,
falling back to the accumulator. -/
theorem baseFiltersFold_lookup (pfs : List Filter) :
    ∀ (acc : String → Option Filter) (n : String), n ≠ "" →
      baseFiltersFold acc pfs n
        = ((pfs.filter (fun f => f.propertyName = n)).getLast?).or (acc n) := by
  induction pfs with
  | nil => intro acc n hn; rfl
  | cons f rest ih =>
    intro acc n hn
    rw [baseFiltersFold, ih _ n hn, List.filter_cons]
    by_cases hf : f.propertyName = n
    · have hne : ¬(f.propertyName = "") := by rw [hf]; exact hn
      simp only [hf, decide_True, if_true]
      rw [or_getLast?_cons]
      congr 1
      rw [if_neg hn]
      simp
    · have hnf : ¬(n = f.propertyName) := fun h => hf h.symm
      simp only [hf, decide_False, if_false]
      congr 1
      by_cases hne : f.propertyName = ""
      · simp [hne]
      · simp [hne, hnf]

/-- Lookup in the `baseFilters` object: for a nonempty name it is the last
filter of that name in the input sequence. -/
theorem baseFiltersOf_eq_getLast (pfs : List Filter) (n : String) (hn : n ≠ "") :
    baseFiltersOf pfs n = (pfs.filter (fun f => f.propertyName = n)).getLast? := by
  rw [baseFiltersOf, baseFiltersFold_lookup pfs _ n hn, Option.or_none]

/-- Flattening the fulfilled branches equals flattening every branch's
contribution, rejected branches contributing nothing. -/
theorem filterMap_settled_flatten (rs : List UpstreamResult) :
    (rs.filterMap settledValue?).flatten = (rs.map fulfilledList).flatten := by
  induction rs with
  | nil => rfl
  | cons r rs ih => cases r <;> simp [settledValue?, fulfilledList, ih]

/-- If every branch is rejected, nothing survives the fulfilled filter. -/
theorem filterMap_settled_nil (l : List UpstreamCall) (up : UpstreamCall → UpstreamResult)
    (h : ∀ c ∈ l, up c = .rejected) : (l.map up).filterMap settledValue? = [] := by
  induction l with
  | nil => rfl
  | cons c l ih =>
    rw [List.map_cons, List.filterMap_cons, h c (List.mem_cons_self c l)]
    exact ih (fun c hc => h c (List.mem_cons_of_mem _ hc))

/-- With a configured token and present `propertyFilters`, the main handler
issues exactly the fan-out calls. -/
theorem getCompatibilities_calls (tok : Option String) (up : UpstreamCall → UpstreamResult)
    (catId : Option String) (names : Option (List String)) (pfs : List Filter)
    (htok : isFalsy tok = false) :
    (getCompatibilities tok up ⟨catId, some pfs, names⟩).upstreamCalls
      = yearCalls ⟨catId, some pfs, names⟩ pfs := by
  rw [getCompatibilities]
  simp only [htok, Bool.false_eq_true, if_false]
  split <;> rfl

/-- Unfolding equation for `hasLtT` on two explicit heads. -/
theorem hasLtT_cons_cons (a b : Char) (l : List Char) :
    hasLtT (a :: b :: l) = ((a == '<' && b == 't') || hasLtT (b :: l)) := rfl

/-- `hasLtT` over an append: a hit lies in the left part, in the right
part, or straddles the junction. -/
theorem hasLtT_append (l₁ l₂ : List Char) :
    hasLtT (l₁ ++ l₂)
      = (hasLtT l₁ || hasLtT l₂ || (l₁.getLast? == some '<' && l₂.head? == some 't')) := by
  induction l₁ with
  | nil => simp [hasLtT]
  | cons a l₁ ih =>
    cases l₁ with
    | nil =>
      cases l₂ with
      | nil => simp [hasLtT]
      | cons c r => simp [hasLtT, Bool.or_comm]
    | cons b rest =>
      show ((a == '<' && b == 't') || hasLtT ((b :: rest) ++ l₂)) = _
      rw [ih, hasLtT_cons_cons, List.getLast?_cons_cons]
      simp [Bool.or_assoc]

/-- A list with no `'<'` at all has no `"<t"` occurrence. -/
theorem hasLtT_of_no_lt (l : List Char) (h : ∀ c ∈ l, c ≠ '<') : hasLtT l = false := by
  induction l with
  | nil => rfl
  | cons a m ih =>
    have ha : a ≠ '<' := h a (List.mem_cons_self a m)
    have ih' : hasLtT m = false := ih (fun c hc => h c (List.mem_cons_of_mem _ hc))
    cases m with
    | nil => rfl
    | cons b r =>
      rw [hasLtT]
      simp [ha, ih']

/-- `String.toList` distributes over append. -/
theorem string_toList_append (s t : String) : (s ++ t).toList = s.toList ++ t.toList := by
  cases s; cases t; rfl

/-- The no-data paragraph contains no `"<t"` (hence no table markup) as
long as the interpolated label contains no `'<'`. -/
theorem noDataParagraph_no_table (L : String) (h : ∀ ch ∈ L.toList, ch ≠ '<') :
    hasLtT (noDataParagraph L).toList = false := by
  rw [noDataParagraph, string_toList_append, string_toList_append, List.append_assoc,
    hasLtT_append, hasLtT_append]
  rw [hasLtT_of_no_lt L.toList h]
  simp [hasLtT]

/-! ### Claim theorems -/

/-- Claim C1, counterexample: a fan-out with one Year value whose only
branch rejects yields a 200 response with the no-data paragraph, not the
502 the claim requires — `Promise.allSettled` absorbs every branch
rejection, so the 502 `catch` is never reached from branch failures. -/
theorem c1_counterexample :
    (getCompatibilities (some "t") upAllRejected
        ⟨none, some [⟨"Year", "2014"⟩], none⟩).response
      = some (200, ApiBody.html "<p>No compatibility data found for Vehicle.</p>")
    ∧ ¬ (getCompatibilities (some "t") upAllRejected
        ⟨none, some [⟨"Year", "2014"⟩], none⟩).response.map Prod.fst = some 502 :=
  ⟨by decide, by decide⟩

/-- Claim C1 (amended): with a configured credential, if every fan-out
branch fails the merged data is empty and the endpoint responds 200 with
the no-data paragraph (never 502); whenever the merged data is empty the
response is that 200 no-data paragraph; and when the merged data is
nonempty the endpoint responds 200 with the table built from exactly the
succeeded branches' records (failed branches silently contribute
nothing). -/
theorem c1_amended (tok : Option String) (up : UpstreamCall → UpstreamResult)
    (catId : Option String) (names : Option (List String)) (pfs : List Filter)
    (htok : isFalsy tok = false) :
    ((∀ c ∈ yearCalls ⟨catId, some pfs, names⟩ pfs, up c = .rejected) →
        mergedOf up ⟨catId, some pfs, names⟩ pfs = [])
    ∧ (mergedOf up ⟨catId, some pfs, names⟩ pfs = [] →
        (getCompatibilities tok up ⟨catId, some pfs, names⟩).response
          = some (200, ApiBody.html (noDataParagraph
              (jsOr ((baseFiltersOf pfs "Make").map Filter.propertyValue) "Vehicle"))))
    ∧ (mergedOf up ⟨catId, some pfs, names⟩ pfs ≠ [] →
        (getCompatibilities tok up ⟨catId, some pfs, names⟩).response
          = some (200, ApiBody.html (generateCompatibilityTable
              (mergedOf up ⟨catId, some pfs, names⟩ pfs) (baseFiltersOf pfs)))
        ∧ mergedOf up ⟨catId, some pfs, names⟩ pfs
            = ((yearCalls ⟨catId, some pfs, names⟩ pfs).map
                (fun c => fulfilledList (up c))).flatten) := by
  refine ⟨?_, ?_, ?_⟩
  · intro hrej
    rw [mergedOf, filterMap_settled_nil _ up hrej]
    rfl
  · intro hm
    simp [getCompatibilities, htok, hm]
  · intro hm
    have hlen : ¬ (mergedOf up ⟨catId, some pfs, names⟩ pfs).length = 0 :=
      fun h => hm (List.length_eq_zero.mp h)
    refine ⟨?_, ?_⟩
    · simp [getCompatibilities, htok, hlen]
    · rw [mergedOf, filterMap_settled_flatten, List.map_map]
      rfl

/-- Claim C1, witness: the amended statement at a concrete request whose
single branch rejects. -/
theorem c1_witness :
    (getCompatibilities (some "t") upAllRejected
        ⟨none, some [⟨"Make", "Ram"⟩, ⟨"Year", "2014"⟩], none⟩).response
      = some (200, ApiBody.html (noDataParagraph
          (jsOr ((baseFiltersOf [⟨"Make", "Ram"⟩, ⟨"Year", "2014"⟩] "Make").map
            Filter.propertyValue) "Vehicle"))) := by
  have h := c1_amended (some "t") upAllRejected none none
    [⟨"Make", "Ram"⟩, ⟨"Year", "2014"⟩] (by decide)
  exact h.2.1 (h.1 (by decide))

/-- Claim C2, counterexample: a filter sequence with one value per name but
no Year filter produces zero upstream calls, not one; and with a Year
filter placed first, the single call's filter sequence is reordered (Year
moved to the end), not carried unmodified. -/
theorem c2_counterexample :
    (getCompatibilities (some "t") upAllEmpty
        ⟨none, some [⟨"Make", "Ram"⟩], none⟩).upstreamCalls = []
    ∧ (getCompatibilities (some "t") upAllEmpty
          ⟨none, some [⟨"Year", "2014"⟩, ⟨"Make", "Ram"⟩], none⟩).upstreamCalls
        = [⟨"33560", [⟨"Make", "Ram"⟩, ⟨"Year", "2014"⟩], none⟩]
    ∧ ¬ ([⟨"Make", "Ram"⟩, ⟨"Year", "2014"⟩] : List Filter)
        = [⟨"Year", "2014"⟩, ⟨"Make", "Ram"⟩] :=
  ⟨by decide, by decide, by decide⟩

/-- Claim C2 (amended): with a configured credential, a filter sequence
with exactly one Year value yields exactly one upstream call carrying the
same filters reordered — every non-Year filter in input order followed by
the single Year filter — while a filter sequence with no Year value yields
no upstream call at all. -/
theorem c2_amended (tok : Option String) (up : UpstreamCall → UpstreamResult)
    (catId : Option String) (names : Option (List String)) (pfs : List Filter) (y : String)
    (htok : isFalsy tok = false) :
    (selectedYears pfs = [y] →
      (getCompatibilities tok up ⟨catId, some pfs, names⟩).upstreamCalls
        = [⟨jsOr catId DEFAULT_CATEGORY_ID, nonYearFilters pfs ++ [⟨"Year", y⟩], names⟩])
    ∧ (selectedYears pfs = [] →
      (getCompatibilities tok up ⟨catId, some pfs, names⟩).upstreamCalls = []) := by
  rw [getCompatibilities_calls tok up catId names pfs htok]
  constructor
  · intro hy
    rw [yearCalls, hy]
    rfl
  · intro hy
    rw [yearCalls, hy]
    rfl

/-- Claim C2, witness: the amended statement at the concrete sequence
`[{Make,Ram},{Year,2014}]`. -/
theorem c2_witness :
    (getCompatibilities (some "t") upAllEmpty
        ⟨none, some [⟨"Make", "Ram"⟩, ⟨"Year", "2014"⟩], none⟩).upstreamCalls
      = [⟨jsOr none DEFAULT_CATEGORY_ID,
          nonYearFilters [⟨"Make", "Ram"⟩, ⟨"Year", "2014"⟩] ++ [⟨"Year", "2014"⟩], none⟩] :=
  (c2_amended (some "t") upAllEmpty none none
    [⟨"Make", "Ram"⟩, ⟨"Year", "2014"⟩] "2014" (by decide)).1 (by decide)

/-- Claim C3, counterexample: a record whose details carry `Make = Honda`,
rendered against base filters `Make = Ram, Trim = Sport`, produces a row
different from the uniform detail-then-base-then-empty chain the claim
asserts: the code renders Make from the base filter only (ignoring the
detail) and Trim from the detail only (ignoring the base filter). -/
theorem c3_counterexample :
    createTableRow ⟨[⟨"Make", "Honda"⟩]⟩ (baseFiltersOf [⟨"Make", "Ram"⟩, ⟨"Trim", "Sport"⟩])
      ≠ claimRow ⟨[⟨"Make", "Honda"⟩]⟩ (baseFiltersOf [⟨"Make", "Ram"⟩, ⟨"Trim", "Sport"⟩]) := by
  decide

/-- Claim C3 (amended): every rendered row has all six cells (a column is
never omitted, only blank): the Year cell resolves detail, then base
filter, then empty; the Make and Model cells resolve from the base filter
then empty, ignoring the record's details; the Trim, Engine and Notes
cells resolve from the detail then empty, ignoring base filters; and the
rendered table holds exactly one row per merged record. -/
theorem c3_amended (c : CompatRecord) (base : String → Option Filter)
    (data : List CompatRecord) (hd : data ≠ []) :
    createTableRow c base
      = "\n<tr>\n<td data-label=\"Year\">" ++ codeCellYear c base ++
        "</td>\n<td data-label=\"Make\">" ++ codeCellBase base "Make" ++
        "</td>\n<td data-label=\"Model\">" ++ codeCellBase base "Model" ++
        "</td>\n<td data-label=\"Trim\">" ++ codeCellDetail c "Trim" ++
        "</td>\n<td data-label=\"Engine\">" ++ codeCellDetail c "Engine" ++
        "</td>\n<td data-label=\"Notes\">" ++ codeCellDetail c "Notes" ++
        "</td>\n</tr>"
    ∧ generateCompatibilityTable data base
        = tableOpening (jsOr ((base "Make").map Filter.propertyValue) "Vehicle")
            ++ String.join (data.map (fun r => createTableRow r base)) ++ tableClosing
    ∧ (data.map (fun r => createTableRow r base)).length = data.length := by
  have hlen : ¬ data.length = 0 := fun h => hd (List.length_eq_zero.mp h)
  refine ⟨rfl, ?_, by simp⟩
  simp [generateCompatibilityTable, hlen]

/-- Claim C3, witness: the amended statement at a record with no details
and a one-record merge. -/
theorem c3_witness :
    createTableRow (⟨[]⟩ : CompatRecord) (baseFiltersOf [])
      = "\n<tr>\n<td data-label=\"Year\">" ++ codeCellYear (⟨[]⟩ : CompatRecord) (baseFiltersOf []) ++
        "</td>\n<td data-label=\"Make\">" ++ codeCellBase (baseFiltersOf []) "Make" ++
        "</td>\n<td data-label=\"Model\">" ++ codeCellBase (baseFiltersOf []) "Model" ++
        "</td>\n<td data-label=\"Trim\">" ++ codeCellDetail (⟨[]⟩ : CompatRecord) "Trim" ++
        "</td>\n<td data-label=\"Engine\">" ++ codeCellDetail (⟨[]⟩ : CompatRecord) "Engine" ++
        "</td>\n<td data-label=\"Notes\">" ++ codeCellDetail (⟨[]⟩ : CompatRecord) "Notes" ++
        "</td>\n</tr>"
    ∧ generateCompatibilityTable [(⟨[]⟩ : CompatRecord)] (baseFiltersOf [])
        = tableOpening (jsOr ((baseFiltersOf [] "Make").map Filter.propertyValue) "Vehicle")
            ++ String.join ([(⟨[]⟩ : CompatRecord)].map
                (fun r => createTableRow r (baseFiltersOf []))) ++ tableClosing
    ∧ ([(⟨[]⟩ : CompatRecord)].map
        (fun r => createTableRow r (baseFiltersOf []))).length
      = [(⟨[]⟩ : CompatRecord)].length :=
  c3_amended (⟨[]⟩ : CompatRecord) (baseFiltersOf []) [(⟨[]⟩ : CompatRecord)] (by decide)

set_option maxRecDepth 4096 in
/-- Claim C4: for the example input filters
`[{Year,2014},{Year,2020},{Make,Ram},{Model,1500}]` with propertyNames
`[Engine,Trim]`, exactly two upstream calls are issued — Year=2014 and
Year=2020, each carrying Make=Ram and Model=1500 — and with upstream
returning one record for 2014 (details Year=2014, Engine=5.7L V8) and an
empty fulfilled result for 2020, the rendered table has exactly one row:
Year=2014, Make=Ram, Model=1500, Trim empty, Engine=5.7L V8, Notes
empty. -/
theorem c4_example :
    (getCompatibilities (some "t") upExample reqExample).upstreamCalls
      = [⟨"33560", [⟨"Make", "Ram"⟩, ⟨"Model", "1500"⟩, ⟨"Year", "2014"⟩],
          some ["Engine", "Trim"]⟩,
         ⟨"33560", [⟨"Make", "Ram"⟩, ⟨"Model", "1500"⟩, ⟨"Year", "2020"⟩],
          some ["Engine", "Trim"]⟩]
    ∧ (getCompatibilities (some "t") upExample reqExample).response
      = some (200, ApiBody.html
          "\n<h2>Compatibility Results for Ram</h2>\n<table class=\"responsive-table\">\n<thead>\n<tr>\n<th>Year</th>\n<th>Make</th>\n<th>Model</th>\n<th>Trim</th>\n<th>Engine</th>\n<th>Notes</th>\n</tr>\n</thead>\n<tbody>\n\n<tr>\n<td data-label=\"Year\">2014</td>\n<td data-label=\"Make\">Ram</td>\n<td data-label=\"Model\">1500</td>\n<td data-label=\"Trim\"></td>\n<td data-label=\"Engine\">5.7L V8</td>\n<td data-label=\"Notes\"></td>\n</tr>\n</tbody>\n</table>") :=
  ⟨by decide, by decide⟩

/-- Claim C8: with a configured credential, whenever the merged sequence is
empty the response is the single no-data paragraph whose label is the Make
filter's value when present and nonempty, else the generic "Vehicle", and
(as long as the label itself contains no markup) the body holds no `"<t"`,
hence none of the table tags the renderer can emit. -/
theorem c8_no_data (tok : Option String) (up : UpstreamCall → UpstreamResult)
    (catId : Option String) (names : Option (List String)) (pfs : List Filter)
    (htok : isFalsy tok = false)
    (hm : mergedOf up ⟨catId, some pfs, names⟩ pfs = []) :
    (getCompatibilities tok up ⟨catId, some pfs, names⟩).response
      = some (200, ApiBody.html (noDataParagraph
          (jsOr ((baseFiltersOf pfs "Make").map Filter.propertyValue) "Vehicle")))
    ∧ (∀ f : Filter, baseFiltersOf pfs "Make" = some f → f.propertyValue ≠ "" →
        jsOr ((baseFiltersOf pfs "Make").map Filter.propertyValue) "Vehicle"
          = f.propertyValue)
    ∧ (baseFiltersOf pfs "Make" = none →
        jsOr ((baseFiltersOf pfs "Make").map Filter.propertyValue) "Vehicle" = "Vehicle")
    ∧ ((∀ ch ∈ (jsOr ((baseFiltersOf pfs "Make").map Filter.propertyValue) "Vehicle").toList,
          ch ≠ '<') →
        hasLtT (noDataParagraph
          (jsOr ((baseFiltersOf pfs "Make").map Filter.propertyValue) "Vehicle")).toList
          = false) := by
  refine ⟨?_, ?_, ?_, ?_⟩
  · simp [getCompatibilities, htok, hm]
  · intro f hf hv
    rw [hf]
    simp [jsOr, hv]
  · intro h0
    rw [h0]
    rfl
  · intro hch
    exact noDataParagraph_no_table _ hch

/-- Claim C8, witness: the no-data statement at a request with a Make
filter and no Year filter (hence no upstream call and an empty merge);
the paragraph names "Ram". -/
theorem c8_witness :
    (getCompatibilities (some "t") upAllRejected
        ⟨none, some [⟨"Make", "Ram"⟩], none⟩).response
      = some (200, ApiBody.html (noDataParagraph
          (jsOr ((baseFiltersOf [⟨"Make", "Ram"⟩] "Make").map Filter.propertyValue) "Vehicle")))
    ∧ jsOr ((baseFiltersOf [⟨"Make", "Ram"⟩] "Make").map Filter.propertyValue) "Vehicle"
        = "Ram" := by
  have h := c8_no_data (some "t") upAllRejected none none [⟨"Make", "Ram"⟩]
    (by decide) (by decide)
  exact ⟨h.1, h.2.1 ⟨"Make", "Ram"⟩ (by decide) (by decide)⟩

/-- Claim C5, counterexample: for the input `[{Year,2014},{Year,2020}]` the
FilterGroup for `Year` holds only `["2020"]` — the `reduce` into an object
overwrites, so it does not preserve all values of a multiply-occurring
name. -/
theorem c5_counterexample :
    groupValues [⟨"Year", "2014"⟩, ⟨"Year", "2020"⟩] "Year" = ["2020"]
    ∧ ¬ groupValues [⟨"Year", "2014"⟩, ⟨"Year", "2020"⟩] "Year" = ["2014", "2020"] :=
  ⟨by decide, by decide⟩

/-- Claim C5 (amended): for every nonempty property name, the FilterGroup
built from the caller's filter sequence holds exactly one filter — the last
filter of that name in input order; in particular a name appearing exactly
once keeps exactly that one value, and earlier values of a repeated name
are discarded rather than preserved. -/
theorem c5_amended (pfs : List Filter) (n : String) (hn : n ≠ "") :
    baseFiltersOf pfs n = (pfs.filter (fun f => f.propertyName = n)).getLast?
    ∧ (∀ f : Filter, pfs.filter (fun g => g.propertyName = n) = [f] →
        baseFiltersOf pfs n = some f) := by
  refine ⟨baseFiltersOf_eq_getLast pfs n hn, ?_⟩
  intro f hf
  rw [baseFiltersOf_eq_getLast pfs n hn, hf]
  simp

/-- Claim C5, witness: the amended statement applied to the concrete input
`[{Year,2014},{Year,2020}]`. -/
theorem c5_witness :
    baseFiltersOf [⟨"Year", "2014"⟩, ⟨"Year", "2020"⟩] "Year"
      = (([⟨"Year", "2014"⟩, ⟨"Year", "2020"⟩] : List Filter).filter
          (fun f => f.propertyName = "Year")).getLast? :=
  (c5_amended [⟨"Year", "2014"⟩, ⟨"Year", "2020"⟩] "Year" (by decide)).1

/-- Claim C6: with a configured credential and N values for the Year
dimension, the handler issues exactly N upstream calls; the i-th call
carries every non-Year filter unchanged (in input order) plus the single
Year filter fixed to the i-th Year value; and the merged result is the
concatenation of the branch outputs in issuance order (each rejected
branch contributing nothing). -/
theorem c6_fanout (tok : Option String) (up : UpstreamCall → UpstreamResult)
    (catId : Option String) (names : Option (List String)) (pfs : List Filter) (N : Nat)
    (htok : isFalsy tok = false)
    (hN : (pfs.filter (fun f => f.propertyName = "Year")).length = N) :
    (getCompatibilities tok up ⟨catId, some pfs, names⟩).upstreamCalls.length = N
    ∧ (getCompatibilities tok up ⟨catId, some pfs, names⟩).upstreamCalls
        = (selectedYears pfs).map (fun y =>
            ⟨jsOr catId DEFAULT_CATEGORY_ID, nonYearFilters pfs ++ [⟨"Year", y⟩], names⟩)
    ∧ mergedOf up ⟨catId, some pfs, names⟩ pfs
        = ((getCompatibilities tok up ⟨catId, some pfs, names⟩).upstreamCalls.map
            (fun c => fulfilledList (up c))).flatten := by
  rw [getCompatibilities_calls tok up catId names pfs htok]
  refine ⟨?_, rfl, ?_⟩
  · simpa [yearCalls, selectedYears] using hN
  · rw [mergedOf, filterMap_settled_flatten, List.map_map]
    rfl

/-- Claim C6, witness: the fan-out statement at the concrete example
filters (two Year values). -/
theorem c6_witness :
    (getCompatibilities (some "t") upAllEmpty ⟨none, some pfsExample, none⟩).upstreamCalls.length = 2
    ∧ (getCompatibilities (some "t") upAllEmpty ⟨none, some pfsExample, none⟩).upstreamCalls
        = (selectedYears pfsExample).map (fun y =>
            ⟨jsOr none DEFAULT_CATEGORY_ID, nonYearFilters pfsExample ++ [⟨"Year", y⟩], none⟩)
    ∧ mergedOf upAllEmpty ⟨none, some pfsExample, none⟩ pfsExample
        = ((getCompatibilities (some "t") upAllEmpty ⟨none, some pfsExample, none⟩).upstreamCalls.map
            (fun c => fulfilledList (upAllEmpty c))).flatten :=
  c6_fanout (some "t") upAllEmpty none none pfsExample 2 (by decide) (by decide)

/-- Claim C7: whenever the server-side credential is absent (the env var
unset or empty), all three endpoints answer 401 with no upstream call
attempted, regardless of the request body. -/
theorem c7_missing_credential (tok : Option String) (htok : isFalsy tok = true)
    (up : UpstreamCall → UpstreamResult) (req : CompatRequest)
    (upP : PropertyCall → PropResult) (year make : Option String) :
    getCompatibilities tok up req
      = { response := some (401, .html authErrorHtml), upstreamCalls := [] }
    ∧ getMakes tok upP year
      = { response := some (401, .jsonError "Missing eBay Token"), upstreamCalls := [] }
    ∧ getModels tok upP year make
      = { response := some (401, .jsonError "Missing eBay Token"), upstreamCalls := [] } := by
  refine ⟨?_, ?_, ?_⟩ <;> simp [getCompatibilities, getMakes, getModels, htok]

/-- Claim C7, witness: the 401 statement at an unset credential and
concrete bodies. -/
theorem c7_witness :
    getCompatibilities none upAllRejected ⟨none, none, none⟩
      = { response := some (401, ApiBody.html authErrorHtml), upstreamCalls := [] }
    ∧ getMakes none upPropRejected none
      = { response := some (401, ApiBody.jsonError "Missing eBay Token"), upstreamCalls := [] }
    ∧ getModels none upPropRejected none none
      = { response := some (401, ApiBody.jsonError "Missing eBay Token"), upstreamCalls := [] } :=
  c7_missing_credential none (by decide) upAllRejected ⟨none, none, none⟩ upPropRejected none none

/-- Claim C9, code-bug evaluation: with a configured credential and a body
missing `propertyFilters` entirely, the handler produces NO HTTP response:
`propertyFilters.filter(...)` on line 113 (which, unlike line 107, has no
`|| []` guard) throws a `TypeError`, the async handler rejects, and none of
the handler's success or error paths is reached. -/
theorem c9_missing_filters_crash :
    getCompatibilities (some "t") upAllRejected ⟨none, none, none⟩
      = { response := none, upstreamCalls := [] } := by
  decide

/-- Claim C10: on `get-makes` and `get-models` (with a configured
credential), a required field present but equal to the empty string is
treated exactly like an absent field: the endpoint returns 400 with no
upstream call. -/
theorem c10_empty_required_fields (tok : Option String) (upP : PropertyCall → PropResult)
    (htok : isFalsy tok = false) :
    (getMakes tok upP (some "")
        = { response := some (400, .jsonError "Year is required"), upstreamCalls := [] }
      ∧ getMakes tok upP (some "") = getMakes tok upP none)
    ∧ (∀ make : Option String,
        getModels tok upP (some "") make
          = { response := some (400, .jsonError "Year and Make are required"), upstreamCalls := [] }
        ∧ getModels tok upP (some "") make = getModels tok upP none make)
    ∧ (∀ year : Option String,
        getModels tok upP year (some "") = getModels tok upP year none
        ∧ (isFalsy year = false →
            getModels tok upP year (some "")
              = { response := some (400, .jsonError "Year and Make are required"), upstreamCalls := [] })) := by
  have he : isFalsy (some "") = true := rfl
  have hno : isFalsy (none : Option String) = true := rfl
  refine ⟨⟨?_, ?_⟩, ?_, ?_⟩
  · simp [getMakes, htok, he]
  · simp [getMakes, htok, he, hno]
  · intro make
    constructor <;> simp [getModels, htok, he, hno]
  · intro year
    constructor
    · simp [getModels, htok, he, hno]
    · intro hy
      simp [getModels, htok, hy, he]

/-- Claim C10, witness: empty `year` on `get-makes` and empty `make` on
`get-models`, with a configured credential. -/
theorem c10_witness :
    getMakes (some "t") upPropRejected (some "")
      = { response := some (400, ApiBody.jsonError "Year is required"), upstreamCalls := [] }
    ∧ getModels (some "t") upPropRejected (some "2014") (some "")
      = { response := some (400, ApiBody.jsonError "Year and Make are required"), upstreamCalls := [] } := by
  have h := c10_empty_required_fields (some "t") upPropRejected (by decide)
  exact ⟨h.1.1, (h.2.2 (some "2014")).2 (by decide)⟩

end EbayCompat
